import Mathlib

/-!
Verification of the Football-Analysis tactical pipeline.

Shallow embedding of the analytics core of the repository:
- `backend/services/whoscored_service.py` (`_normalize_tactical_from_events`),
- `backend/services/tactical_ml_service.py` (`_build_samples_for_team`,
  `train_model`, `predict`),
- `backend/services/tactical_ai_engine.py` (`_calculate_confidence`).

Python floats are embedded as rationals (`ℚ`) except for the transcendental
per-shot xG formula, embedded over the reals (`ℝ`).  Python `round(x, k)`
is embedded as `roundTo k`; Python uses round-half-to-even while `roundTo`
rounds half away from zero, a difference visible only at exact ties, which
none of the statements below depend on.
-/

section RatKernelReduction

-- Batteries marks these Rat primitives irreducible, which blocks `decide`
-- on concrete rational arithmetic; making them semireducible inside this
-- section restores evaluation without changing any semantics.
attribute [local semireducible] Rat.mul Rat.inv Rat.add Rat.sub Rat.ofScientific

namespace FA

/-- Python `round(q, k)` (ties aside, see the module comment). -/
def roundTo (k : ℕ) (q : ℚ) : ℚ := (round (q * (10 : ℚ) ^ k) : ℤ) / (10 : ℚ) ^ k

/-- `_safe_mean` of `whoscored_service.py` applied to a list with the missing
values already dropped: the mean, or `none` for the empty list. -/
def meanOpt (l : List ℚ) : Option ℚ := if l.isEmpty then none else some (l.sum / l.length)

/-- Substring containment on character lists: `py "needle in haystack"`. -/
def isPrefixOfCL : List Char → List Char → Bool
  | [], _ => true
  | _ :: _, [] => false
  | a :: as, b :: bs => a == b && isPrefixOfCL as bs

/-- Substring search worker over character lists. -/
def containsCL (pat : List Char) : List Char → Bool
  | [] => pat.isEmpty
  | c :: rest => isPrefixOfCL pat (c :: rest) || containsCL pat rest

/-- Python `pat in hay` for strings (the slugs compared in the normalizer). -/
def hasSub (hay pat : String) : Bool := containsCL pat.data hay.data

end FA

namespace FA.Engine

/-!
`TacticalAIEngine._calculate_confidence` (tactical_ai_engine.py lines 437-489).
The function reads from the opponent stats dict: `pressing_structure.PPDA`,
`possession_control.pass_accuracy`, `defensive_actions.defensive_rating`,
`matches_analyzed` and `estimated`.  `Stats` carries exactly those fields;
a `none` models a missing/None/unparsable value.
-/

/-- The slice of the stats dict read by `_calculate_confidence`. -/
structure Stats where
  ppda : Option ℚ
  passAccuracy : Option ℚ
  defensiveRating : Option String
  matchesAnalyzed : Option ℤ
  estimated : Bool
deriving DecidableEq

/-- `float(pressing.get('PPDA', 12) or 12)`: missing, None and 0 (falsy) give 12. -/
def ppdaValue (s : Stats) : ℚ :=
  match s.ppda with
  | none => 12
  | some v => if v = 0 then 12 else v

/-- `float(possession.get('pass_accuracy', 75) or 75)`. -/
def passAccuracyValue (s : Stats) : ℚ :=
  match s.passAccuracy with
  | none => 75
  | some v => if v = 0 then 75 else v

/-- `int(matches_analyzed) if matches_analyzed is not None else 1` (parse failure also 1). -/
def matchesValue (s : Stats) : ℤ :=
  match s.matchesAnalyzed with
  | none => 1
  | some n => n

/-- `+10` for extreme PPDA, `+5` for moderate extremes. -/
def ppdaBonus (s : Stats) : ℤ :=
  if ppdaValue s < 17/2 ∨ 16 < ppdaValue s then 10
  else if ppdaValue s < 21/2 ∨ 27/2 < ppdaValue s then 5
  else 0

/-- `+5` for extreme pass accuracy. -/
def passAccBonus (s : Stats) : ℤ :=
  if passAccuracyValue s < 70 ∨ 85 < passAccuracyValue s then 5 else 0

/-- `+10` if the defensive rating is flagged Vulnerable or Solid. -/
def defRatingBonus (s : Stats) : ℤ :=
  if s.defensiveRating = some "Vulnerable" ∨ s.defensiveRating = some "Solid" then 10 else 0

/-- `+10` / `+6` / `+3` scaled by the number of matches analyzed. -/
def matchesBonus (s : Stats) : ℤ :=
  if 8 ≤ matchesValue s then 10
  else if 5 ≤ matchesValue s then 6
  else if 3 ≤ matchesValue s then 3
  else 0

/-- `-10` when the fingerprint is an estimated aggregate. -/
def estimatedPenalty (s : Stats) : ℤ := if s.estimated then 10 else 0

/-- The raw confidence score before the 95 cap (local `score` of the source). -/
def confScore (s : Stats) : ℤ :=
  70 + ppdaBonus s + passAccBonus s + defRatingBonus s + matchesBonus s - estimatedPenalty s

/-- `overall_confidence = min(95, score)`. -/
def overallConfidence (s : Stats) : ℤ := min 95 (confScore s)

lemma ppdaBonus_nonneg (s : Stats) : 0 ≤ ppdaBonus s := by
  unfold ppdaBonus; split
  · norm_num
  · split <;> norm_num

lemma ppdaBonus_le (s : Stats) : ppdaBonus s ≤ 10 := by
  unfold ppdaBonus; split
  · norm_num
  · split <;> norm_num

lemma passAccBonus_nonneg (s : Stats) : 0 ≤ passAccBonus s := by
  unfold passAccBonus; split <;> norm_num

lemma passAccBonus_le (s : Stats) : passAccBonus s ≤ 5 := by
  unfold passAccBonus; split <;> norm_num

lemma defRatingBonus_nonneg (s : Stats) : 0 ≤ defRatingBonus s := by
  unfold defRatingBonus; split <;> norm_num

lemma defRatingBonus_le (s : Stats) : defRatingBonus s ≤ 10 := by
  unfold defRatingBonus; split <;> norm_num

lemma matchesBonus_nonneg (s : Stats) : 0 ≤ matchesBonus s := by
  unfold matchesBonus; split
  · norm_num
  · split
    · norm_num
    · split <;> norm_num

lemma matchesBonus_le (s : Stats) : matchesBonus s ≤ 10 := by
  unfold matchesBonus; split
  · norm_num
  · split
    · norm_num
    · split <;> norm_num

lemma estimatedPenalty_nonneg (s : Stats) : 0 ≤ estimatedPenalty s := by
  unfold estimatedPenalty; split <;> norm_num

lemma estimatedPenalty_le (s : Stats) : estimatedPenalty s ≤ 10 := by
  unfold estimatedPenalty; split <;> norm_num

lemma confScore_ge (s : Stats) : 60 ≤ confScore s := by
  have h1 := ppdaBonus_nonneg s
  have h2 := passAccBonus_nonneg s
  have h3 := defRatingBonus_nonneg s
  have h4 := matchesBonus_nonneg s
  have h5 := estimatedPenalty_le s
  unfold confScore; omega

/-- Claim C5: the overall confidence of `_calculate_confidence` is
`min 95` of base 70 plus the PPDA bonus (+10 extreme, +5 moderate), the
pass-accuracy bonus (+5 extreme), the defensive-rating bonus (+10 for
Vulnerable/Solid), the matches-analyzed bonus (+3/+6/+10), minus 10 when
estimated; and it always lies in [0, 95]. -/
theorem c5_confidence_shape_and_bounds (s : Stats) :
    overallConfidence s =
      min 95 (70
        + (if ppdaValue s < 17/2 ∨ 16 < ppdaValue s then 10
           else if ppdaValue s < 21/2 ∨ 27/2 < ppdaValue s then 5 else 0)
        + (if passAccuracyValue s < 70 ∨ 85 < passAccuracyValue s then 5 else 0)
        + (if s.defensiveRating = some "Vulnerable" ∨ s.defensiveRating = some "Solid"
           then 10 else 0)
        + (if 8 ≤ matchesValue s then 10
           else if 5 ≤ matchesValue s then 6
           else if 3 ≤ matchesValue s then 3 else 0)
        - (if s.estimated then 10 else 0))
    ∧ 0 ≤ overallConfidence s ∧ overallConfidence s ≤ 95 := by
  refine ⟨rfl, ?_, ?_⟩
  · have h := confScore_ge s
    unfold overallConfidence
    omega
  · unfold overallConfidence
    omega

/-- Concrete stats maxing out every bonus: raw score 105 without `estimated`. -/
def statsMaxed : Stats :=
  { ppda := some 5
    passAccuracy := some 90
    defensiveRating := some "Vulnerable"
    matchesAnalyzed := some 10
    estimated := false }

/-- `statsMaxed` with `estimated` toggled on. -/
def statsMaxedEst : Stats := { statsMaxed with estimated := true }

/-- Claim C4 counterexample: on stats whose raw score exceeds the 95 cap
(PPDA 5, pass accuracy 90, Vulnerable rating, 10 matches), toggling
`estimated` does not lower the clamped confidence by 10 — both clamp to 95. -/
theorem c4_counterexample :
    ¬ (overallConfidence statsMaxedEst = overallConfidence statsMaxed - 10) := by
  decide

/-- Claim C4 (amended): toggling `estimated=true` on otherwise-identical stats
lowers the raw score by exactly 10, and the clamped overall confidence by
exactly 10 whenever the non-estimated raw score does not exceed the 95 cap;
when the raw score exceeds 95 both confidences can clamp to 95. -/
theorem c4_amended (s : Stats) (hest : s.estimated = false) (hcap : confScore s ≤ 95) :
    overallConfidence { s with estimated := true } = overallConfidence s - 10 := by
  have hshift : confScore { s with estimated := true } = confScore s - 10 := by
    simp [confScore, ppdaBonus, ppdaValue, passAccBonus, passAccuracyValue,
      defRatingBonus, matchesBonus, matchesValue, estimatedPenalty, hest]
  unfold overallConfidence
  rw [hshift]
  omega

/-- Stats with every field missing: raw score 70. -/
def statsDefault : Stats :=
  { ppda := none
    passAccuracy := none
    defensiveRating := none
    matchesAnalyzed := none
    estimated := false }

theorem c4_amended_witness :
    statsDefault.estimated = false ∧ confScore statsDefault ≤ 95 ∧
      overallConfidence { statsDefault with estimated := true } =
        overallConfidence statsDefault - 10 :=
  ⟨rfl, by decide, c4_amended statsDefault rfl (by decide)⟩

end FA.Engine

namespace FA.ML

/-!
`TacticalMLService` (tactical_ml_service.py).  The sklearn estimators, the
joblib file and the event feed are external collaborators: the collected
dataset is passed to `trainModel` as an argument (the service computes it
from the feed in `_collect_dataset`), fitting is abstracted into building a
bundle that records the sample count, and the model file is modelled by the
`persisted` field of the state (`joblib.dump` assumed to succeed).  Running
the sklearn pipelines at inference time is modelled by an `Except`-valued
argument: `Except.error` stands for the exception caught at line 619 of the
source (for example a malformed feature row).
-/

/-- A trained model bundle: the three fitted estimators (their presence is
what `predict` checks at line 606) plus the metadata sample count. -/
structure Bundle where
  resultModel : Bool
  goalsForModel : Bool
  goalsAgainstModel : Bool
  sampleCount : ℕ
deriving DecidableEq

/-- The dataset assembled by `_collect_dataset`. -/
structure Dataset where
  samples : ℕ
  teamsWithSamples : ℕ
  totalTeamsSeen : ℕ
deriving DecidableEq

/-- The mutable service state: `enabled` (`ML_ENABLED`), the configured
minimum sample count, the in-memory bundle, the persisted model file and
`_last_error`. -/
structure MLState where
  enabled : Bool
  minSamples : ℕ
  bundle : Option Bundle
  persisted : Option Bundle
  lastError : Option String
deriving DecidableEq

/-- `self.min_samples = max(30, int(ML_MIN_SAMPLES or 120))`: a missing or
zero (falsy) setting gives the default 120, floored at 30. -/
def minSamplesOf (cfg : Option ℕ) : ℕ :=
  max 30 (match cfg with
    | none => 120
    | some n => if n = 0 then 120 else n)

/-- `self.window_size = max(3, int(ML_WINDOW_SIZE or 5))`. -/
def windowSizeOf (cfg : Option ℕ) : ℕ :=
  max 3 (match cfg with
    | none => 5
    | some n => if n = 0 then 5 else n)

/-- The dict returned by `train_model`, restricted to the keys the claims
are about (`skipped` is absent, hence false, on every non-skip path). -/
structure TrainResult where
  ok : Bool
  skipped : Bool
  reason : Option String
deriving DecidableEq

/-- `train_model` (lines 453-530): disabled guard, skip-if-loaded guard,
minimum-sample refusal, then fit + persist + swap the in-memory bundle. -/
def trainModel (s : MLState) (force : Bool) (ds : Dataset) : TrainResult × MLState :=
  if !s.enabled then
    ({ ok := false, skipped := false, reason := some "ML disabled by configuration" }, s)
  else if s.bundle.isSome && !force then
    ({ ok := true, skipped := true,
       reason := some "Model already exists. Use force=true to retrain." }, s)
  else if ds.samples < s.minSamples then
    let msg := "Not enough samples for ML training: got " ++ toString ds.samples
      ++ ", need at least " ++ toString s.minSamples ++ "."
    ({ ok := false, skipped := false, reason := some msg },
     { s with lastError := some msg })
  else
    let b : Bundle :=
      { resultModel := true, goalsForModel := true, goalsAgainstModel := true,
        sampleCount := ds.samples }
    ({ ok := true, skipped := false, reason := none },
     { s with bundle := some b, persisted := some b, lastError := none })

/-- What running the sklearn pipelines on the feature row yields (lines
612-618): the class-probability map, the predicted class and the two
regression outputs. -/
structure Inference where
  probs : List (String × ℚ)
  resultPred : String
  goalsFor : ℚ
  goalsAgainst : ℚ
deriving DecidableEq

/-- `prob_map.get(k, 0.0)`. -/
def lookupProb (l : List (String × ℚ)) (k : String) : ℚ :=
  match l.find? (fun p => p.1 == k) with
  | some p => p.2
  | none => 0

/-- `max(prob_map.values()) if prob_map else 0.0`. -/
def maxProb : List (String × ℚ) → ℚ
  | [] => 0
  | p :: ps => ps.foldl (fun acc q => max acc q.2) p.2

/-- The derived opponent risk score (line 625):
`max(0.0, min(100.0, p_win*100 + goals_for*15 - goals_against*7.5))`. -/
def riskScoreOf (pWin gf ga : ℚ) : ℚ :=
  max 0 (min 100 (pWin * 100 + gf * 15 - ga * 15/2))

/-- The fields of the dict returned by `predict` that the claims are about. -/
structure PredictResult where
  enabled : Bool
  reason : Option String := none
  confidence : Option ℚ := none
  mostLikelyResult : Option String := none
  expectedGoalsFor : Option ℚ := none
  expectedGoalsAgainst : Option ℚ := none
  opponentRiskScore : Option ℚ := none
  opponentRiskLevel : Option String := none
  formationHint : Option String := none
  pressingHint : Option String := none
  attackFocusHint : Option String := none
  gameStateHint : Option String := none
deriving DecidableEq

/-- `predict` (lines 590-666): disabled guard, no-bundle guard, invalid
bundle guard, inference (whose failure is caught and returned as a disabled
result), then risk score, risk bucket and hint strings. -/
def predict (s : MLState) (infer : Except String Inference) : PredictResult :=
  if !s.enabled then { enabled := false, reason := some "ML disabled" }
  else
    match s.bundle with
    | none => { enabled := false, reason := some "Model not trained" }
    | some b =>
      if !b.resultModel || !b.goalsForModel || !b.goalsAgainstModel then
        { enabled := false, reason := some "Invalid model bundle" }
      else
        match infer with
        | Except.error e => { enabled := false, reason := some ("ML inference failed: " ++ e) }
        | Except.ok inf =>
          let pWin := lookupProb inf.probs "W"
          let riskScore := riskScoreOf pWin inf.goalsFor inf.goalsAgainst
          let hints : String × String × String × String × String :=
            if 62 ≤ riskScore then
              ("high", "4-1-4-1", "MID/LOW BLOCK", "transitions_and_set_pieces",
               "control_risk_first")
            else if 42 ≤ riskScore then
              ("medium", "4-2-3-1", "MID BLOCK + TRIGGERS", "balanced_channels",
               "balanced_plan")
            else
              ("low", "4-3-3 Attack", "HIGH PRESS", "sustained_pressure",
               "proactive_dominance")
          { enabled := true
            reason := none
            confidence := some (roundTo 1 (maxProb inf.probs * 100))
            mostLikelyResult := some inf.resultPred
            expectedGoalsFor := some (roundTo 2 inf.goalsFor)
            expectedGoalsAgainst := some (roundTo 2 inf.goalsAgainst)
            opponentRiskScore := some (roundTo 1 riskScore)
            opponentRiskLevel := some hints.1
            formationHint := some hints.2.1
            pressingHint := some hints.2.2.1
            attackFocusHint := some hints.2.2.2.1
            gameStateHint := some hints.2.2.2.2 }

/-- Claim C7: when ML is enabled and training is actually attempted (no
bundle loaded, or force), a collected dataset below the configured minimum
makes `train_model` return ok=false with a diagnostic reason, without
fitting a bundle or touching the persisted model file. -/
theorem c7_train_refuses_below_minimum (s : MLState) (force : Bool) (ds : Dataset)
    (hen : s.enabled = true) (hrun : s.bundle = none ∨ force = true)
    (hlow : ds.samples < s.minSamples) :
    (trainModel s force ds).1.ok = false
    ∧ ((trainModel s force ds).1.reason).isSome = true
    ∧ (trainModel s force ds).2.bundle = s.bundle
    ∧ (trainModel s force ds).2.persisted = s.persisted := by
  have hskip : (s.bundle.isSome && !force) = false := by
    rcases hrun with h | h <;> simp [h]
  simp only [trainModel, hen, hskip, hlow, Bool.not_true, Bool.false_eq_true,
    if_false, if_true]
  simp [hlow]

/-- A fresh state: ML enabled, default minimum (120), nothing loaded. -/
def mlFresh : MLState :=
  { enabled := true, minSamples := minSamplesOf none, bundle := none,
    persisted := none, lastError := none }

/-- A collected dataset of 100 samples. -/
def ds100 : Dataset := { samples := 100, teamsWithSamples := 5, totalTeamsSeen := 10 }

theorem c7_train_refuses_below_minimum_witness :
    mlFresh.enabled = true ∧ (mlFresh.bundle = none ∨ False) ∧
      ds100.samples < mlFresh.minSamples ∧
      ((trainModel mlFresh false ds100).1.ok = false
        ∧ ((trainModel mlFresh false ds100).1.reason).isSome = true
        ∧ (trainModel mlFresh false ds100).2.bundle = mlFresh.bundle
        ∧ (trainModel mlFresh false ds100).2.persisted = mlFresh.persisted) :=
  ⟨rfl, Or.inl rfl, by decide,
    c7_train_refuses_below_minimum mlFresh false ds100 rfl (Or.inl rfl) (by decide)⟩

/-- Claim C8: whenever no bundle is loaded — and likewise whenever running
the models on the feature row raises — `predict` returns a disabled result
with a reason instead of propagating an exception (the embedding is a total
function; the caught-exception path is the `Except.error` case). -/
theorem c8_predict_disabled_without_bundle (s : MLState) (infer : Except String Inference)
    (e : String) (h : s.bundle = none ∨ infer = Except.error e) :
    (predict s infer).enabled = false ∧ ((predict s infer).reason).isSome = true := by
  rcases h with h | h
  · cases hen : s.enabled <;> simp [predict, hen, h]
  · subst h
    cases hen : s.enabled
    · simp [predict, hen]
    · cases hb : s.bundle with
      | none => simp [predict, hen, hb]
      | some b =>
        by_cases hm : (!b.resultModel || !b.goalsForModel || !b.goalsAgainstModel) = true
        · simp [predict, hen, hb, hm]
        · simp [predict, hen, hb, hm]

/-- A well-formed inference output, so that the disabled result in the
witness is forced by the missing bundle alone. -/
def inferOk : Except String Inference :=
  Except.ok { probs := [("W", 1/2), ("D", 3/10), ("L", 1/5)],
              resultPred := "W", goalsFor := 1, goalsAgainst := 1 }

theorem c8_predict_disabled_without_bundle_witness :
    (mlFresh.bundle = none ∨ inferOk = Except.error "boom") ∧
      ((predict mlFresh inferOk).enabled = false
        ∧ ((predict mlFresh inferOk).reason).isSome = true) :=
  ⟨Or.inl rfl, c8_predict_disabled_without_bundle mlFresh inferOk "boom" (Or.inl rfl)⟩

end FA.ML

namespace FA.ML

/-- Claim C9: on a successful inference, the derived opponent risk score is
exactly `clamp(0, 100, p_win*100 + goals_for*15 - goals_against*7.5)`, the
reported field is that score (rounded to one decimal for display), and the
risk bucket thresholds 62/42 select the level and the fixed
formation/pressing/attack-focus/game-state hint strings. -/
theorem c9_risk_score_and_buckets (s : MLState) (b : Bundle) (inf : Inference)
    (hen : s.enabled = true) (hb : s.bundle = some b)
    (h1 : b.resultModel = true) (h2 : b.goalsForModel = true)
    (h3 : b.goalsAgainstModel = true) :
    riskScoreOf (lookupProb inf.probs "W") inf.goalsFor inf.goalsAgainst
        = max 0 (min 100 (lookupProb inf.probs "W" * 100
            + inf.goalsFor * 15 - inf.goalsAgainst * 15/2))
    ∧ (predict s (Except.ok inf)).opponentRiskScore
        = some (roundTo 1 (riskScoreOf (lookupProb inf.probs "W") inf.goalsFor inf.goalsAgainst))
    ∧ (predict s (Except.ok inf)).opponentRiskLevel
        = some (if 62 ≤ riskScoreOf (lookupProb inf.probs "W") inf.goalsFor inf.goalsAgainst
            then "high"
            else if 42 ≤ riskScoreOf (lookupProb inf.probs "W") inf.goalsFor inf.goalsAgainst
            then "medium" else "low")
    ∧ (predict s (Except.ok inf)).formationHint
        = some (if 62 ≤ riskScoreOf (lookupProb inf.probs "W") inf.goalsFor inf.goalsAgainst
            then "4-1-4-1"
            else if 42 ≤ riskScoreOf (lookupProb inf.probs "W") inf.goalsFor inf.goalsAgainst
            then "4-2-3-1" else "4-3-3 Attack")
    ∧ (predict s (Except.ok inf)).pressingHint
        = some (if 62 ≤ riskScoreOf (lookupProb inf.probs "W") inf.goalsFor inf.goalsAgainst
            then "MID/LOW BLOCK"
            else if 42 ≤ riskScoreOf (lookupProb inf.probs "W") inf.goalsFor inf.goalsAgainst
            then "MID BLOCK + TRIGGERS" else "HIGH PRESS")
    ∧ (predict s (Except.ok inf)).attackFocusHint
        = some (if 62 ≤ riskScoreOf (lookupProb inf.probs "W") inf.goalsFor inf.goalsAgainst
            then "transitions_and_set_pieces"
            else if 42 ≤ riskScoreOf (lookupProb inf.probs "W") inf.goalsFor inf.goalsAgainst
            then "balanced_channels" else "sustained_pressure")
    ∧ (predict s (Except.ok inf)).gameStateHint
        = some (if 62 ≤ riskScoreOf (lookupProb inf.probs "W") inf.goalsFor inf.goalsAgainst
            then "control_risk_first"
            else if 42 ≤ riskScoreOf (lookupProb inf.probs "W") inf.goalsFor inf.goalsAgainst
            then "balanced_plan" else "proactive_dominance") := by
  refine ⟨rfl, ?_, ?_, ?_, ?_, ?_, ?_⟩ <;>
    simp only [predict, hen, hb, h1, h2, h3, Bool.not_true, Bool.false_or,
      Bool.or_self, if_false, Bool.false_eq_true]
  all_goals (split <;> first | rfl | (split <;> rfl))

/-- A loaded, valid bundle trained on 150 samples. -/
def bundleOk : Bundle :=
  { resultModel := true, goalsForModel := true, goalsAgainstModel := true,
    sampleCount := 150 }

/-- A state with `bundleOk` loaded (also persisted) and ML enabled. -/
def mlLoaded : MLState :=
  { enabled := true, minSamples := minSamplesOf none, bundle := some bundleOk,
    persisted := some bundleOk, lastError := none }

/-- The inference payload carried by `inferOk`. -/
def infSample : Inference :=
  { probs := [("W", 1/2), ("D", 3/10), ("L", 1/5)],
    resultPred := "W", goalsFor := 1, goalsAgainst := 1 }

theorem c9_risk_score_and_buckets_witness :
    mlLoaded.enabled = true ∧ mlLoaded.bundle = some bundleOk ∧
      bundleOk.resultModel = true ∧ bundleOk.goalsForModel = true ∧
      bundleOk.goalsAgainstModel = true ∧
      (predict mlLoaded (Except.ok infSample)).opponentRiskLevel
        = some (if 62 ≤ riskScoreOf (lookupProb infSample.probs "W")
              infSample.goalsFor infSample.goalsAgainst
            then "high"
            else if 42 ≤ riskScoreOf (lookupProb infSample.probs "W")
              infSample.goalsFor infSample.goalsAgainst
            then "medium" else "low") :=
  ⟨rfl, rfl, rfl, rfl, rfl,
    (c9_risk_score_and_buckets mlLoaded bundleOk infSample rfl rfl rfl rfl rfl).2.2.1⟩

/-- A disabled service that nevertheless has a bundle loaded (the source
loads any existing model file in `__init__` regardless of `ML_ENABLED`). -/
def mlDisabledLoaded : MLState :=
  { enabled := false, minSamples := minSamplesOf none, bundle := some bundleOk,
    persisted := some bundleOk, lastError := none }

/-- Claim C10 counterexample: with a bundle loaded and force=false but ML
disabled by configuration, `train_model` returns ok=false ("ML disabled by
configuration"), not ok=true with skipped=true. -/
theorem c10_counterexample :
    ¬ ((trainModel mlDisabledLoaded false ds100).1.ok = true
        ∧ (trainModel mlDisabledLoaded false ds100).1.skipped = true) := by
  decide

/-- Claim C10 (amended): when ML is enabled, any call to `train_model` with
a bundle already loaded and force=false returns ok=true with skipped=true
and leaves the state — in-memory bundle, persisted model file, last error —
untouched, for every dataset (so nothing is collected, fitted or written);
training, and the below-minimum refusal, only run when no bundle is loaded
or force=true. -/
theorem c10_amended (s : MLState) (ds : Dataset)
    (hen : s.enabled = true) (hb : s.bundle.isSome = true) :
    trainModel s false ds =
      ({ ok := true, skipped := true,
         reason := some "Model already exists. Use force=true to retrain." }, s) := by
  simp [trainModel, hen, hb]

theorem c10_amended_witness :
    mlLoaded.enabled = true ∧ mlLoaded.bundle.isSome = true ∧
      trainModel mlLoaded false ds100 =
        ({ ok := true, skipped := true,
           reason := some "Model already exists. Use force=true to retrain." }, mlLoaded) :=
  ⟨rfl, rfl, c10_amended mlLoaded ds100 rfl rfl⟩

end FA.ML

namespace FA.Agg

/-!
`_build_samples_for_team` and `_aggregate_history_window`
(tactical_ml_service.py lines 209-291).  A fingerprint enters here only
through `_extract_match_features` (a fixed tuple of optional floats, here
`feats`, indexed by position in `FEATURE_NAMES`), `match_info.result` and
`match_info.score`; `score` carries the two integers `_parse_score` reads
out of the "a-b" string, `none` when parsing fails (as it does for the
`None` score of an estimated fingerprint).  `_build_samples_for_team` first
sorts by `match_info.date`; the claim quantifies over chronologically
ordered sequences, on which that sort is the identity, so the embedding
takes the ordered list directly.  `pyUpper`/`pyStrip` are Python
`str.upper`/`str.strip` written by structural recursion on the character
list (the library versions do not reduce in the kernel).
-/

/-- Python `str.upper` (per-character uppercasing). -/
def pyUpper (s : String) : String := String.mk (s.data.map Char.toUpper)

/-- Python `str.strip`: whitespace removed from both ends. -/
def pyStrip (s : String) : String :=
  String.mk (((s.data.dropWhile Char.isWhitespace).reverse.dropWhile
    Char.isWhitespace).reverse)

/-- One tactical fingerprint as seen by the aggregator. -/
structure MatchFp where
  result : String
  score : Option (ℤ × ℤ)
  feats : List (Option ℚ)
deriving DecidableEq

/-- `_result_to_points`: W gives 3, D gives 1, anything else 0. -/
def resultPoints (r : String) : ℚ :=
  if pyUpper (pyStrip r) = "W" then 3 else if pyUpper (pyStrip r) = "D" then 1 else 0

/-- `_target_from_match`: the (result, goals_for, goals_against) label, only
when the result is W/D/L and the score parsed. -/
def targetFromMatch (m : MatchFp) : Option (String × ℤ × ℤ) :=
  let r := pyUpper m.result
  if r = "W" ∨ r = "D" ∨ r = "L" then
    match m.score with
    | some sc => some (r, sc.1, sc.2)
    | none => none
  else none

/-- Mean over the window of the values present for feature `j`
(`_mean(values_by_feature[key])`). -/
def featAt (history : List MatchFp) (j : ℕ) : Option ℚ :=
  meanOpt (history.filterMap (fun m => m.feats.getD j none))

/-- The per-match point values of the window. -/
def formPoints (history : List MatchFp) : List ℚ :=
  history.map (fun m => resultPoints m.result)

/-- `_aggregate_history_window` over `F` event-derived features: the `F`
per-feature means followed by the four form features (points per game, win
rate over `max 1 n`, mean goals for, mean goals against). -/
def aggregate (F : ℕ) (history : List MatchFp) : List (Option ℚ) :=
  let points := formPoints history
  let n : ℚ := ((max 1 history.length : ℕ) : ℚ)
  let gfVals := history.filterMap (fun m => m.score.map (fun sc => (sc.1 : ℚ)))
  let gaVals := history.filterMap (fun m => m.score.map (fun sc => (sc.2 : ℚ)))
  ((List.range F).map (featAt history)) ++
    [if points.isEmpty then none else some (points.sum / n),
     if points.isEmpty then none
       else some (((points.filter (fun p => 3 ≤ p)).length : ℚ) / n),
     meanOpt gfVals,
     meanOpt gaVals]

/-- One training sample: the source returns four parallel lists
`(x_rows, y_result, y_goals_for, y_goals_against)`; here their zip. -/
structure Sample where
  row : List (Option ℚ)
  result : String
  goalsFor : ℚ
  goalsAgainst : ℚ
deriving DecidableEq

/-- The body of the sample loop for target index `k + W`. -/
def sampleAt (W F : ℕ) (ordered : List MatchFp) (k : ℕ) : Option Sample :=
  match ordered[k + W]? with
  | none => none
  | some t =>
    match targetFromMatch t with
    | none => none
    | some x =>
      some { row := aggregate F ((ordered.drop k).take W),
             result := x.1, goalsFor := (x.2.1 : ℚ), goalsAgainst := (x.2.2 : ℚ) }

/-- `_build_samples_for_team` on a chronologically ordered list: for each
index `idx` from `W` to the end, the window `ordered[idx-W:idx]` and the
target `ordered[idx]`, skipping targets without a valid result/score. -/
def buildSamplesForTeam (W F : ℕ) (ordered : List MatchFp) : List Sample :=
  if ordered.length ≤ W then []
  else (List.range (ordered.length - W)).filterMap (sampleAt W F ordered)

lemma filterMap_length_of_isSome {α β : Type} (f : α → Option β) :
    ∀ l : List α, (∀ a ∈ l, (f a).isSome) → (l.filterMap f).length = l.length := by
  intro l
  induction l with
  | nil => intro; rfl
  | cons a t ih =>
    intro h
    obtain ⟨b, hb⟩ := Option.isSome_iff_exists.mp (h a (by simp))
    simp [List.filterMap_cons, hb, ih (fun x hx => h x (by simp [hx]))]

lemma filterMap_getElem?_of_isSome {α β : Type} (f : α → Option β) :
    ∀ (l : List α) (k : ℕ), (∀ a ∈ l, (f a).isSome) → k < l.length →
      ∃ a, l[k]? = some a ∧ (l.filterMap f)[k]? = f a := by
  intro l
  induction l with
  | nil => intro k _ hk; simp at hk
  | cons a t ih =>
    intro k h hk
    obtain ⟨b, hb⟩ := Option.isSome_iff_exists.mp (h a (by simp))
    cases k with
    | zero => exact ⟨a, by simp, by simp [List.filterMap_cons, hb]⟩
    | succ k =>
      obtain ⟨c, hc1, hc2⟩ :=
        ih k (fun x hx => h x (by simp [hx])) (by simpa using hk)
      exact ⟨c, by simpa using hc1, by simp [List.filterMap_cons, hb, hc2]⟩

lemma sampleAt_isSome (W F : ℕ) (ordered : List MatchFp)
    (hv : ∀ m ∈ ordered, (targetFromMatch m).isSome = true)
    (k : ℕ) (hk : k + W < ordered.length) :
    (sampleAt W F ordered k).isSome := by
  have ht : ordered[k + W]? = some (ordered[k + W]) := List.getElem?_eq_getElem hk
  obtain ⟨x, hx⟩ := Option.isSome_iff_exists.mp
    (hv (ordered[k + W]) (List.getElem?_mem ht))
  simp [sampleAt, ht, hx]

/-- Claim C2: on a chronologically ordered sequence of `L` fingerprints all
carrying a valid target (result in W/D/L and a parsed score), with window
size `W` the sample builder produces exactly `L - W` samples, and the k-th
sample aggregates exactly the `W` fingerprints strictly before the target
`ordered[k+W]` (positions k..k+W-1, so the target is never inside its own
window) and labels them with that target. -/
theorem c2_window_count_and_no_leakage (W F : ℕ) (ordered : List MatchFp)
    (hv : ∀ m ∈ ordered, (targetFromMatch m).isSome = true) :
    (buildSamplesForTeam W F ordered).length = ordered.length - W
    ∧ ∀ k, k < ordered.length - W →
        ∃ t x, ordered[k + W]? = some t ∧ targetFromMatch t = some x ∧
          (buildSamplesForTeam W F ordered)[k]? =
            some { row := aggregate F ((ordered.take (k + W)).drop k),
                   result := x.1, goalsFor := (x.2.1 : ℚ),
                   goalsAgainst := (x.2.2 : ℚ) } := by
  by_cases hle : ordered.length ≤ W
  · refine ⟨?_, ?_⟩
    · simp [buildSamplesForTeam, hle]
    · intro k hk
      omega
  · have hfun : ∀ k ∈ List.range (ordered.length - W), (sampleAt W F ordered k).isSome :=
      fun k hk => sampleAt_isSome W F ordered hv k
        (by rw [List.mem_range] at hk; omega)
    have hbuild : buildSamplesForTeam W F ordered =
        (List.range (ordered.length - W)).filterMap (sampleAt W F ordered) := by
      simp [buildSamplesForTeam, hle]
    refine ⟨?_, ?_⟩
    · rw [hbuild, filterMap_length_of_isSome _ _ hfun, List.length_range]
    · intro k hk
      obtain ⟨a, ha1, ha2⟩ := filterMap_getElem?_of_isSome (sampleAt W F ordered)
        (List.range (ordered.length - W)) k hfun (by simpa using hk)
      rw [List.getElem?_range hk] at ha1
      have hak : a = k := (Option.some.inj ha1).symm
      subst hak
      have hklt : a + W < ordered.length := by omega
      have ht : ordered[a + W]? = some (ordered[a + W]) := List.getElem?_eq_getElem hklt
      obtain ⟨x, hx⟩ := Option.isSome_iff_exists.mp
        (hv (ordered[a + W]) (List.getElem?_mem ht))
      refine ⟨ordered[a + W], x, ht, hx, ?_⟩
      rw [hbuild, ha2]
      simp [sampleAt, ht, hx, List.take_drop]

/-- Two valid fingerprints: a 2-0 win then a 1-1 draw, one feature each. -/
def fpWin : MatchFp := { result := "W", score := some (2, 0), feats := [some 55] }

/-- See `fpWin`. -/
def fpDraw : MatchFp := { result := "D", score := some (1, 1), feats := [some 48] }

theorem c2_window_count_and_no_leakage_witness :
    (∀ m ∈ [fpWin, fpDraw], (targetFromMatch m).isSome = true)
    ∧ ((buildSamplesForTeam 1 1 [fpWin, fpDraw]).length = [fpWin, fpDraw].length - 1
      ∧ ∀ k, k < [fpWin, fpDraw].length - 1 →
          ∃ t x, [fpWin, fpDraw][k + 1]? = some t ∧ targetFromMatch t = some x ∧
            (buildSamplesForTeam 1 1 [fpWin, fpDraw])[k]? =
              some { row := aggregate 1 (([fpWin, fpDraw].take (k + 1)).drop k),
                     result := x.1, goalsFor := (x.2.1 : ℚ),
                     goalsAgainst := (x.2.2 : ℚ) }) :=
  ⟨by decide, c2_window_count_and_no_leakage 1 1 [fpWin, fpDraw] (by decide)⟩

end FA.Agg

namespace FA.WS

/-!
`_normalize_tactical_from_events` (whoscored_service.py lines 532-906).
One row of the events dataframe is embedded as `Ev`:

* `team`   — the result of `row_team_match` (the input is partitioned by
  team on the team id / team name of the row);
* `typ`    — the slug `_normalize_event_type` returns for `type`/`event_type`;
* `outc`   — the same for `outcome_type`/`outcomeType`/`outcome`;
* `quals`  — `_qual_text(qualifiers)`;
* `x y endX endY` — `_to_float` of the coordinate columns (`none` when
  missing/unparsable);
* `isShot`/`isGoal` — the `is_shot`/`is_goal` flags;
* `minute`/`second` — `_to_int` of the minute/second columns.

The metric computations below follow the source line by line; every Python
`X if rows else None` guard becomes `if rows.isEmpty then none else some X`.
-/

/-- One normalized event row. -/
structure Ev where
  team : Bool
  typ : String
  outc : String
  quals : String
  x : Option ℚ
  y : Option ℚ
  endX : Option ℚ
  endY : Option ℚ
  isShot : Bool
  isGoal : Bool
  minute : Option ℤ
  second : Option ℤ
deriving DecidableEq

/-- `team_rows` (line 584). -/
def teamRows (es : List Ev) : List Ev := es.filter (fun r => r.team)

/-- `opp_rows` (line 585). -/
def oppRows (es : List Ev) : List Ev := es.filter (fun r => !r.team)

/-- `pass_rows` (line 608). -/
def passRows (es : List Ev) : List Ev :=
  (teamRows es).filter (fun r => hasSub r.typ "pass")

/-- `succ_pass_rows` (line 609). -/
def succPassRows (es : List Ev) : List Ev :=
  (passRows es).filter (fun r => hasSub r.outc "successful")

/-- `long_balls` (line 615). -/
def longBallRows (es : List Ev) : List Ev :=
  (passRows es).filter (fun r => hasSub r.quals "long")

/-- `long_balls_ok` (line 616). -/
def longBallOkRows (es : List Ev) : List Ev :=
  (longBallRows es).filter (fun r => hasSub r.outc "successful")

/-- `crosses` (line 618). -/
def crossRows (es : List Ev) : List Ev :=
  (passRows es).filter (fun r => hasSub r.quals "cross")

/-- `crosses_ok` (line 619). -/
def crossOkRows (es : List Ev) : List Ev :=
  (crossRows es).filter (fun r => hasSub r.outc "successful")

/-- `key_passes` (line 621). -/
def keyPassRows (es : List Ev) : List Ev :=
  (passRows es).filter (fun r => hasSub r.quals "key pass")

/-- Loop lines 627-638: rows with both start-x and end-x are classified;
rows missing either are skipped (`continue`). -/
def progressiveRows (es : List Ev) : List Ev :=
  (passRows es).filter (fun r =>
    match r.x, r.endX with
    | some sx, some ex => decide (25 ≤ ex - sx)
    | _, _ => false)

/-- `final_third_passes` (line 633). -/
def finalThirdRows (es : List Ev) : List Ev :=
  (passRows es).filter (fun r =>
    match r.x, r.endX with
    | some sx, some ex => (decide (sx < 66) && decide (66 ≤ ex)) || hasSub r.quals "final third"
    | _, _ => false)

/-- `penalty_passes` (line 635). -/
def penaltyAreaRows (es : List Ev) : List Ev :=
  (passRows es).filter (fun r =>
    match r.x, r.endX with
    | some _, some ex =>
      (decide (83 ≤ ex) && (match r.endY with
        | some ey => decide (21 ≤ ey) && decide (ey ≤ 79)
        | none => false)) || hasSub r.quals "penalty area"
    | _, _ => false)

/-- `cutbacks` (line 637). -/
def cutbackRows (es : List Ev) : List Ev :=
  (passRows es).filter (fun r =>
    match r.x, r.endX with
    | some sx, some ex =>
      decide (85 ≤ sx) && (match r.y with
        | some sy => decide (sy ≤ 20) || decide (80 ≤ sy)
        | none => false) && decide (80 ≤ ex) && (match r.endY with
        | some ey => decide (24 ≤ ey) && decide (ey ≤ 76)
        | none => false)
    | _, _ => false)

/-- `is_shot_row` (lines 640-644). -/
def isShotRow (r : Ev) : Bool :=
  r.isShot || (["shot", "goal", "miss", "saved", "attempt"].any (fun k => hasSub r.typ k))

/-- `shot_rows` (line 646). -/
def shotRows (es : List Ev) : List Ev := (teamRows es).filter isShotRow

/-- `on_target` (line 656). -/
def shotsOnTargetRows (es : List Ev) : List Ev :=
  (shotRows es).filter (fun r =>
    r.isGoal || hasSub r.quals "on target" || hasSub r.typ "saved")

/-- `inside` (line 662). -/
def isInsideBox (r : Ev) : Bool :=
  hasSub r.quals "inside box" ||
    (match r.x with
      | some sx => decide (83 ≤ sx) && (match r.y with
        | some sy => decide (18 ≤ sy) && decide (sy ≤ 82)
        | none => false)
      | none => false)

/-- `shots_inside` (line 663). -/
def shotsInsideRows (es : List Ev) : List Ev := (shotRows es).filter isInsideBox

/-- `shots_outside` (line 665). -/
def shotsOutsideRows (es : List Ev) : List Ev :=
  (shotRows es).filter (fun r => !isInsideBox r)

/-- The shots contributing an xG value (line 668): both coordinates known. -/
def xgShotRows (es : List Ev) : List Ev :=
  (shotRows es).filter (fun r => r.x.isSome && r.y.isSome)

/-- `xg_values` (lines 668-673): the per-shot xG of every shot with known
coordinates.  The per-shot value itself is the transcendental clamped
logistic of the distance to the nearer goal center; it is passed in as
`xgF` (its real-number form is `perShotXg` below) since only the number of
contributing shots matters for the null-vs-numeric discipline. -/
def xgValues (xgF : ℚ → ℚ → ℚ) (es : List Ev) : List ℚ :=
  (shotRows es).filterMap (fun r =>
    match r.x, r.y with
    | some sx, some sy => some (xgF sx sy)
    | _, _ => none)

/-- `tackles` (line 679). -/
def tackleRows (es : List Ev) : List Ev :=
  (teamRows es).filter (fun r => hasSub r.typ "tackle")

/-- `tackles_won` (line 680). -/
def tackleWonRows (es : List Ev) : List Ev :=
  (tackleRows es).filter (fun r => hasSub r.outc "successful")

/-- `interceptions` (line 681). -/
def interceptionRows (es : List Ev) : List Ev :=
  (teamRows es).filter (fun r => hasSub r.typ "interception")

/-- `clearances` (line 682). -/
def clearanceRows (es : List Ev) : List Ev :=
  (teamRows es).filter (fun r => hasSub r.typ "clearance")

/-- `blocks` (line 683). -/
def blockRows (es : List Ev) : List Ev :=
  (teamRows es).filter (fun r => hasSub r.typ "block")

/-- `duel_rows` (line 685). -/
def duelRows (es : List Ev) : List Ev :=
  (teamRows es).filter (fun r =>
    ["duel", "aerial", "ground"].any (fun k => hasSub r.typ k))

/-- `duel_won` (line 686). -/
def duelWonRows (es : List Ev) : List Ev :=
  (duelRows es).filter (fun r => hasSub r.outc "successful")

/-- `opp_pass_rows` (line 689). -/
def oppPassRows (es : List Ev) : List Ev :=
  (oppRows es).filter (fun r => hasSub r.typ "pass")

/-- `high_actions` (line 690). -/
def highActionRows (es : List Ev) : List Ev :=
  (teamRows es).filter (fun r =>
    ["tackle", "interception", "foul"].any (fun k => hasSub r.typ k))

/-- `high_zone_count` (lines 692-703): the larger of the two attacking-third
zone counts (x at least 60, or at most 40). -/
def highZoneCount (l : List Ev) : ℕ :=
  max
    ((l.filter (fun r => match r.x with
      | some xv => decide (60 ≤ xv)
      | none => false)).length)
    ((l.filter (fun r => match r.x with
      | some xv => decide (xv ≤ 40)
      | none => false)).length)

/-- `turnover_recoveries` (line 709). -/
def turnoverRecoveryRows (es : List Ev) : List Ev :=
  (teamRows es).filter (fun r =>
    ["interception", "tackle", "ball recovery"].any (fun k => hasSub r.typ k))

/-- `high_turnovers_won` (line 710). -/
def highTurnoversWonCount (es : List Ev) : ℕ :=
  highZoneCount (turnoverRecoveryRows es)

/-- `_build_time_seconds` (lines 527-530): `minute*60 + second`, missing
components read as 0. -/
def timeSeconds (r : Ev) : ℤ := (r.minute.getD 0) * 60 + (r.second.getD 0)

/-- `losses` (lines 712-719): timestamps of possession losses. -/
def lossTimes (es : List Ev) : List ℤ :=
  ((teamRows es).filter (fun r =>
    (hasSub r.typ "pass" && !hasSub r.outc "successful")
      || ["dispossessed", "bad touch", "miscontrol"].any (fun k => hasSub r.typ k))).map
    timeSeconds

/-- `recoveries` (lines 712-721): timestamps of ball recoveries. -/
def recoveryTimes (es : List Ev) : List ℤ :=
  ((teamRows es).filter (fun r =>
    (["interception", "tackle", "ball recovery"].any (fun k => hasSub r.typ k))
      && (hasSub r.outc "successful" || hasSub r.typ "interception"))).map
    timeSeconds

/-- `counter_press` (lines 723-729): recoveries within 8 seconds after some
loss.  The source sorts both streams first; the count is invariant under
the sort, so the embedding counts over the unsorted streams. -/
def counterPressCount (es : List Ev) : ℕ :=
  if (lossTimes es).isEmpty || (recoveryTimes es).isEmpty then 0
  else ((recoveryTimes es).filter (fun rt =>
    (lossTimes es).any (fun lt => decide (0 ≤ rt - lt) && decide (rt - lt ≤ 8)))).length

/-- `xs` (line 731): known x coordinates of the team rows. -/
def teamXs (es : List Ev) : List ℚ := (teamRows es).filterMap (fun r => r.x)

/-- `avg_x` (line 733). -/
def avgX (es : List Ev) : Option ℚ := meanOpt (teamXs es)

/-- `corners_for` (line 802). -/
def cornerForRows (es : List Ev) : List Ev :=
  (teamRows es).filter (fun r => hasSub r.typ "corner")

/-- `corners_against` (line 803). -/
def cornerAgainstRows (es : List Ev) : List Ev :=
  (oppRows es).filter (fun r => hasSub r.typ "corner")

end FA.WS

namespace FA.WS

/-- `possessionPercent` of the fingerprint (lines 778-782 of the source). -/
def possessionOpt (es : List Ev) : Option ℚ :=
  if (teamRows es).isEmpty || (oppRows es).isEmpty then none
  else some (roundTo 1 (((teamRows es).length : ℚ)
    / (((teamRows es).length : ℚ) + ((oppRows es).length : ℚ)) * 100))

/-- `passAccuracy` of the fingerprint (line 613 of the source). -/
def passAccuracyOpt (es : List Ev) : Option ℚ :=
  if (passRows es).isEmpty then none
  else some (roundTo 1 (((succPassRows es).length : ℚ) / ((passRows es).length : ℚ) * 100))

/-- `passesPerMinute` of the fingerprint (line 784 of the source). -/
def passesPerMinuteOpt (es : List Ev) : Option ℚ :=
  if (passRows es).isEmpty then none
  else some (roundTo 2 (((passRows es).length : ℚ) / 90))

/-- `longBallsAttempted` of the fingerprint (line 821 of the source). -/
def longBallsAttemptedOpt (es : List Ev) : Option ℚ :=
  if (longBallRows es).isEmpty then none else some ((longBallRows es).length : ℚ)

/-- `longBallsCompleted` of the fingerprint (line 822 of the source). -/
def longBallsCompletedOpt (es : List Ev) : Option ℚ :=
  if (longBallOkRows es).isEmpty then none else some ((longBallOkRows es).length : ℚ)

/-- `totalShots` of the fingerprint (line 827 of the source). -/
def totalShotsOpt (es : List Ev) : Option ℚ :=
  if (shotRows es).isEmpty then none else some ((shotRows es).length : ℚ)

/-- `shotsOnTarget` of the fingerprint (line 828 of the source). -/
def shotsOnTargetOpt (es : List Ev) : Option ℚ :=
  if (shotsOnTargetRows es).isEmpty then none else some ((shotsOnTargetRows es).length : ℚ)

/-- `shotsInsideBox` of the fingerprint (line 830 of the source). -/
def shotsInsideBoxOpt (es : List Ev) : Option ℚ :=
  if (shotsInsideRows es).isEmpty then none else some ((shotsInsideRows es).length : ℚ)

/-- `shotsOutsideBox` of the fingerprint (line 831 of the source). -/
def shotsOutsideBoxOpt (es : List Ev) : Option ℚ :=
  if (shotsOutsideRows es).isEmpty then none else some ((shotsOutsideRows es).length : ℚ)

/-- `keyPasses` of the fingerprint (line 845 of the source). -/
def keyPassesOpt (es : List Ev) : Option ℚ :=
  if (keyPassRows es).isEmpty then none else some ((keyPassRows es).length : ℚ)

/-- `progressivePasses` of the fingerprint (line 846 of the source). -/
def progressivePassesOpt (es : List Ev) : Option ℚ :=
  if (progressiveRows es).isEmpty then none else some ((progressiveRows es).length : ℚ)

/-- `passesIntoFinalThird` of the fingerprint (line 847 of the source). -/
def passesIntoFinalThirdOpt (es : List Ev) : Option ℚ :=
  if (finalThirdRows es).isEmpty then none else some ((finalThirdRows es).length : ℚ)

/-- `passesIntoPenaltyArea` of the fingerprint (line 848 of the source). -/
def passesIntoPenaltyAreaOpt (es : List Ev) : Option ℚ :=
  if (penaltyAreaRows es).isEmpty then none else some ((penaltyAreaRows es).length : ℚ)

/-- `crossesAttempted` of the fingerprint (line 849 of the source). -/
def crossesAttemptedOpt (es : List Ev) : Option ℚ :=
  if (crossRows es).isEmpty then none else some ((crossRows es).length : ℚ)

/-- `crossesAccurate` of the fingerprint (line 850 of the source). -/
def crossesAccurateOpt (es : List Ev) : Option ℚ :=
  if (crossOkRows es).isEmpty then none else some ((crossOkRows es).length : ℚ)

/-- `cutbacks` of the fingerprint (line 851 of the source). -/
def cutbacksOpt (es : List Ev) : Option ℚ :=
  if (cutbackRows es).isEmpty then none else some ((cutbackRows es).length : ℚ)

/-- `tacklesAttempted` of the fingerprint (line 855 of the source). -/
def tacklesAttemptedOpt (es : List Ev) : Option ℚ :=
  if (tackleRows es).isEmpty then none else some ((tackleRows es).length : ℚ)

/-- `tacklesWon` of the fingerprint (line 856 of the source). -/
def tacklesWonOpt (es : List Ev) : Option ℚ :=
  if (tackleWonRows es).isEmpty then none else some ((tackleWonRows es).length : ℚ)

/-- `tackleSuccessRate` of the fingerprint (line 857 of the source). -/
def tackleSuccessRateOpt (es : List Ev) : Option ℚ :=
  if (tackleRows es).isEmpty then none
  else some (roundTo 1 (((tackleWonRows es).length : ℚ) / ((tackleRows es).length : ℚ) * 100))

/-- `interceptions` of the fingerprint (line 858 of the source). -/
def interceptionsOpt (es : List Ev) : Option ℚ :=
  if (interceptionRows es).isEmpty then none else some ((interceptionRows es).length : ℚ)

/-- `blocks` of the fingerprint (line 859 of the source). -/
def blocksOpt (es : List Ev) : Option ℚ :=
  if (blockRows es).isEmpty then none else some ((blockRows es).length : ℚ)

/-- `clearances` of the fingerprint (line 860 of the source). -/
def clearancesOpt (es : List Ev) : Option ℚ :=
  if (clearanceRows es).isEmpty then none else some ((clearanceRows es).length : ℚ)

/-- `defensiveDuelsWonPercent` of the fingerprint (line 687 of the source). -/
def duelPctOpt (es : List Ev) : Option ℚ :=
  if (duelRows es).isEmpty then none
  else some (roundTo 1 (((duelWonRows es).length : ℚ) / ((duelRows es).length : ℚ) * 100))

/-- `duelsWon` of the fingerprint (line 863 of the source). -/
def duelsWonOpt (es : List Ev) : Option ℚ :=
  if (duelWonRows es).isEmpty then none else some ((duelWonRows es).length : ℚ)

/-- `duelsTotal` of the fingerprint (line 864 of the source). -/
def duelsTotalOpt (es : List Ev) : Option ℚ :=
  if (duelRows es).isEmpty then none else some ((duelRows es).length : ℚ)

/-- `highTurnoversWon` of the fingerprint (line 869 of the source). -/
def highTurnoversWonOpt (es : List Ev) : Option ℚ :=
  if highTurnoversWonCount es = 0 then none else some ((highTurnoversWonCount es : ℚ))

/-- `counterPressRecoveries` of the fingerprint (line 870 of the source). -/
def counterPressOpt (es : List Ev) : Option ℚ :=
  if counterPressCount es = 0 then none else some ((counterPressCount es : ℚ))

/-- `cornersTaken` of the fingerprint (line 885 of the source). -/
def cornersTakenOpt (es : List Ev) : Option ℚ :=
  if (cornerForRows es).isEmpty then none else some ((cornerForRows es).length : ℚ)

/-- `cornersConceded` of the fingerprint (line 892 of the source). -/
def cornersConcededOpt (es : List Ev) : Option ℚ :=
  if (cornerAgainstRows es).isEmpty then none else some ((cornerAgainstRows es).length : ℚ)

/-- `shot_conversion_rate` (line 677): goals over shots, from the match
final score. -/
def shotConversionOpt (teamScore : ℕ) (es : List Ev) : Option ℚ :=
  if (shotRows es).isEmpty then none
  else some (roundTo 1 ((teamScore : ℚ) / ((shotRows es).length : ℚ) * 100))

/-- `xG` (line 675): sum of the per-shot values, none when no shot had
coordinates. -/
def xgTotalOpt (xgF : ℚ → ℚ → ℚ) (es : List Ev) : Option ℚ :=
  if (xgValues xgF es).isEmpty then none
  else some (roundTo 2 (xgValues xgF es).sum)

/-- `xG_per_shot` (line 676): sum of per-shot values over the shot count. -/
def xgPerShotOpt (xgF : ℚ → ℚ → ℚ) (es : List Ev) : Option ℚ :=
  if (shotRows es).isEmpty then none
  else some (roundTo 3 ((xgValues xgF es).sum / ((shotRows es).length : ℚ)))

/-- `PPDA` (line 707): all opponent passes over `max 1` of the zone count of
the defensive actions. -/
def ppdaOpt (es : List Ev) : Option ℚ :=
  if (oppPassRows es).isEmpty then none
  else some (roundTo 2 (((oppPassRows es).length : ℚ)
    / ((max 1 (highZoneCount (highActionRows es)) : ℕ) : ℚ)))

/-- `pressing_intensity` (line 868): High below 10, Medium below 14, Low
otherwise, none when PPDA is none. -/
def pressingIntensityOpt (es : List Ev) : Option String :=
  match ppdaOpt es with
  | none => none
  | some p => some (if p < 10 then "High" else if p < 14 then "Medium" else "Low")

/-- `defensive_line_height` (line 740): the mean team x, rounded. -/
def defLineHeightOpt (es : List Ev) : Option ℚ :=
  (avgX es).map (fun v => roundTo 1 v)

/-- The numeric metrics of the tactical fingerprint (plus the
pressing-intensity band used by the PPDA claim).  For an empty event list
the source returns early with an `estimated=true` record carrying no metric
fields at all (lines 541-553); under this embedding every metric of an
empty list is `none`, which is exactly how downstream `_safe_get` reads the
absent keys, so the early return needs no separate case. -/
structure Fingerprint where
  estimated : Bool
  possessionPercent : Option ℚ
  passAccuracy : Option ℚ
  passesPerMinute : Option ℚ
  longBallsAttempted : Option ℚ
  longBallsCompleted : Option ℚ
  totalShots : Option ℚ
  shotsOnTarget : Option ℚ
  shotsInsideBox : Option ℚ
  shotsOutsideBox : Option ℚ
  keyPasses : Option ℚ
  progressivePasses : Option ℚ
  passesIntoFinalThird : Option ℚ
  passesIntoPenaltyArea : Option ℚ
  crossesAttempted : Option ℚ
  crossesAccurate : Option ℚ
  cutbacks : Option ℚ
  tacklesAttempted : Option ℚ
  tacklesWon : Option ℚ
  tackleSuccessRate : Option ℚ
  interceptions : Option ℚ
  blocks : Option ℚ
  clearances : Option ℚ
  defensiveDuelsWonPercent : Option ℚ
  duelsWon : Option ℚ
  duelsTotal : Option ℚ
  highTurnoversWon : Option ℚ
  counterPressRecoveries : Option ℚ
  cornersTaken : Option ℚ
  cornersConceded : Option ℚ
  shotConversionRate : Option ℚ
  xG : Option ℚ
  xGPerShot : Option ℚ
  ppda : Option ℚ
  pressingIntensity : Option String
  defensiveLineHeight : Option ℚ
deriving DecidableEq

/-- `_normalize_tactical_from_events` restricted to the numeric metrics:
`xgF` is the per-shot xG function, `teamScore` the team goals from the
match header. -/
def normalizeTactical (xgF : ℚ → ℚ → ℚ) (teamScore : ℕ) (es : List Ev) : Fingerprint :=
  { estimated := es.isEmpty
    possessionPercent := possessionOpt es
    passAccuracy := passAccuracyOpt es
    passesPerMinute := passesPerMinuteOpt es
    longBallsAttempted := longBallsAttemptedOpt es
    longBallsCompleted := longBallsCompletedOpt es
    totalShots := totalShotsOpt es
    shotsOnTarget := shotsOnTargetOpt es
    shotsInsideBox := shotsInsideBoxOpt es
    shotsOutsideBox := shotsOutsideBoxOpt es
    keyPasses := keyPassesOpt es
    progressivePasses := progressivePassesOpt es
    passesIntoFinalThird := passesIntoFinalThirdOpt es
    passesIntoPenaltyArea := passesIntoPenaltyAreaOpt es
    crossesAttempted := crossesAttemptedOpt es
    crossesAccurate := crossesAccurateOpt es
    cutbacks := cutbacksOpt es
    tacklesAttempted := tacklesAttemptedOpt es
    tacklesWon := tacklesWonOpt es
    tackleSuccessRate := tackleSuccessRateOpt es
    interceptions := interceptionsOpt es
    blocks := blocksOpt es
    clearances := clearancesOpt es
    defensiveDuelsWonPercent := duelPctOpt es
    duelsWon := duelsWonOpt es
    duelsTotal := duelsTotalOpt es
    highTurnoversWon := highTurnoversWonOpt es
    counterPressRecoveries := counterPressOpt es
    cornersTaken := cornersTakenOpt es
    cornersConceded := cornersConcededOpt es
    shotConversionRate := shotConversionOpt teamScore es
    xG := xgTotalOpt xgF es
    xGPerShot := xgPerShotOpt xgF es
    ppda := ppdaOpt es
    pressingIntensity := pressingIntensityOpt es
    defensiveLineHeight := defLineHeightOpt es }

lemma ifEmpty_none_iff {α β : Type} (l : List α) (v : β) :
    (if l.isEmpty then (none : Option β) else some v) = none ↔ l = [] := by
  cases l <;> simp

lemma ifOrEmpty_none_iff {α β : Type} (l1 l2 : List α) (v : β) :
    (if l1.isEmpty || l2.isEmpty then (none : Option β) else some v) = none
      ↔ (l1 = [] ∨ l2 = []) := by
  cases l1 <;> cases l2 <;> simp

lemma ifZero_none_iff {β : Type} (n : ℕ) (v : β) :
    (if n = 0 then (none : Option β) else some v) = none ↔ n = 0 := by
  split <;> simp_all

lemma xgValues_eq_nil_iff (xgF : ℚ → ℚ → ℚ) (es : List Ev) :
    xgValues xgF es = [] ↔ xgShotRows es = [] := by
  unfold xgValues xgShotRows
  induction shotRows es with
  | nil => simp
  | cons r t ih =>
    cases hx : r.x <;> cases hy : r.y <;>
      simp [List.filterMap_cons, List.filter_cons, hx, hy, ih]

/-- Claim C1: every numeric metric of the normalized fingerprint is `none`
exactly when its contributing event set is empty — so a reported value
(including 0) always comes from at least one contributing event, and a
metric with no contributing events is null, never 0. -/
theorem c1_metric_null_iff_no_contributing_events
    (xgF : ℚ → ℚ → ℚ) (ts : ℕ) (es : List Ev) :
    ((normalizeTactical xgF ts es).possessionPercent = none ↔ (teamRows es = [] ∨ oppRows es = []))
    ∧ ((normalizeTactical xgF ts es).passAccuracy = none ↔ passRows es = [])
    ∧ ((normalizeTactical xgF ts es).passesPerMinute = none ↔ passRows es = [])
    ∧ ((normalizeTactical xgF ts es).longBallsAttempted = none ↔ longBallRows es = [])
    ∧ ((normalizeTactical xgF ts es).longBallsCompleted = none ↔ longBallOkRows es = [])
    ∧ ((normalizeTactical xgF ts es).totalShots = none ↔ shotRows es = [])
    ∧ ((normalizeTactical xgF ts es).shotsOnTarget = none ↔ shotsOnTargetRows es = [])
    ∧ ((normalizeTactical xgF ts es).shotsInsideBox = none ↔ shotsInsideRows es = [])
    ∧ ((normalizeTactical xgF ts es).shotsOutsideBox = none ↔ shotsOutsideRows es = [])
    ∧ ((normalizeTactical xgF ts es).keyPasses = none ↔ keyPassRows es = [])
    ∧ ((normalizeTactical xgF ts es).progressivePasses = none ↔ progressiveRows es = [])
    ∧ ((normalizeTactical xgF ts es).passesIntoFinalThird = none ↔ finalThirdRows es = [])
    ∧ ((normalizeTactical xgF ts es).passesIntoPenaltyArea = none ↔ penaltyAreaRows es = [])
    ∧ ((normalizeTactical xgF ts es).crossesAttempted = none ↔ crossRows es = [])
    ∧ ((normalizeTactical xgF ts es).crossesAccurate = none ↔ crossOkRows es = [])
    ∧ ((normalizeTactical xgF ts es).cutbacks = none ↔ cutbackRows es = [])
    ∧ ((normalizeTactical xgF ts es).tacklesAttempted = none ↔ tackleRows es = [])
    ∧ ((normalizeTactical xgF ts es).tacklesWon = none ↔ tackleWonRows es = [])
    ∧ ((normalizeTactical xgF ts es).tackleSuccessRate = none ↔ tackleRows es = [])
    ∧ ((normalizeTactical xgF ts es).interceptions = none ↔ interceptionRows es = [])
    ∧ ((normalizeTactical xgF ts es).blocks = none ↔ blockRows es = [])
    ∧ ((normalizeTactical xgF ts es).clearances = none ↔ clearanceRows es = [])
    ∧ ((normalizeTactical xgF ts es).defensiveDuelsWonPercent = none ↔ duelRows es = [])
    ∧ ((normalizeTactical xgF ts es).duelsWon = none ↔ duelWonRows es = [])
    ∧ ((normalizeTactical xgF ts es).duelsTotal = none ↔ duelRows es = [])
    ∧ ((normalizeTactical xgF ts es).highTurnoversWon = none ↔ highTurnoversWonCount es = 0)
    ∧ ((normalizeTactical xgF ts es).counterPressRecoveries = none ↔ counterPressCount es = 0)
    ∧ ((normalizeTactical xgF ts es).cornersTaken = none ↔ cornerForRows es = [])
    ∧ ((normalizeTactical xgF ts es).cornersConceded = none ↔ cornerAgainstRows es = [])
    ∧ ((normalizeTactical xgF ts es).shotConversionRate = none ↔ shotRows es = [])
    ∧ ((normalizeTactical xgF ts es).xG = none ↔ xgShotRows es = [])
    ∧ ((normalizeTactical xgF ts es).xGPerShot = none ↔ shotRows es = [])
    ∧ ((normalizeTactical xgF ts es).ppda = none ↔ oppPassRows es = [])
    ∧ ((normalizeTactical xgF ts es).defensiveLineHeight = none ↔ teamXs es = []) := by
  refine ⟨?_, ?_, ?_, ?_, ?_, ?_, ?_, ?_, ?_, ?_, ?_, ?_, ?_, ?_, ?_, ?_, ?_, ?_, ?_, ?_, ?_, ?_, ?_, ?_, ?_, ?_, ?_, ?_, ?_, ?_, ?_, ?_, ?_, ?_⟩
  · exact ifOrEmpty_none_iff _ _ _
  · exact ifEmpty_none_iff _ _
  · exact ifEmpty_none_iff _ _
  · exact ifEmpty_none_iff _ _
  · exact ifEmpty_none_iff _ _
  · exact ifEmpty_none_iff _ _
  · exact ifEmpty_none_iff _ _
  · exact ifEmpty_none_iff _ _
  · exact ifEmpty_none_iff _ _
  · exact ifEmpty_none_iff _ _
  · exact ifEmpty_none_iff _ _
  · exact ifEmpty_none_iff _ _
  · exact ifEmpty_none_iff _ _
  · exact ifEmpty_none_iff _ _
  · exact ifEmpty_none_iff _ _
  · exact ifEmpty_none_iff _ _
  · exact ifEmpty_none_iff _ _
  · exact ifEmpty_none_iff _ _
  · exact ifEmpty_none_iff _ _
  · exact ifEmpty_none_iff _ _
  · exact ifEmpty_none_iff _ _
  · exact ifEmpty_none_iff _ _
  · exact ifEmpty_none_iff _ _
  · exact ifEmpty_none_iff _ _
  · exact ifEmpty_none_iff _ _
  · exact ifZero_none_iff _ _
  · exact ifZero_none_iff _ _
  · exact ifEmpty_none_iff _ _
  · exact ifEmpty_none_iff _ _
  · exact ifEmpty_none_iff _ _
  · exact (ifEmpty_none_iff _ _).trans (xgValues_eq_nil_iff xgF es)
  · exact ifEmpty_none_iff _ _
  · exact ifEmpty_none_iff _ _
  · exact Option.map_eq_none'.trans (ifEmpty_none_iff _ _)

end FA.WS

namespace FA.WS

/-!
The per-shot xG value (whoscored_service.py lines 668-673) over the reals:
`d1`/`d2` are the distances to the two goal centers (100,50) and (0,50),
`d` their minimum, and the value the logistic `1/(1+exp((d-18)/4.5))`
clamped into [0.01, 0.85].
-/

/-- `d = min(d1, d2)` of lines 669-671. -/
noncomputable def shotDist (sx sy : ℝ) : ℝ :=
  min (Real.sqrt ((100 - sx) ^ 2 + (50 - sy) ^ 2))
    (Real.sqrt ((sx - 0) ^ 2 + (50 - sy) ^ 2))

/-- Lines 672-673 as a function of the distance: the clamped logistic. -/
noncomputable def xgOfDist (d : ℝ) : ℝ :=
  max 0.01 (min 0.85 (1 / (1 + Real.exp ((d - 18) / 4.5))))

/-- The per-shot xG appended to `xg_values` for a shot at (sx, sy). -/
noncomputable def perShotXg (sx sy : ℝ) : ℝ := xgOfDist (shotDist sx sy)

/-- Claim C3: the per-shot xG of a shot with known coordinates is the
logistic `1/(1+exp((d-18)/4.5))` clamped to [0.01, 0.85] of the distance
`d` to the nearer of the two goal centers; it is monotonically
non-increasing in that distance and always lies in [0.01, 0.85]. -/
theorem c3_per_shot_xg_formula_monotone_bounded (sx sy d1 d2 : ℝ) (h : d1 ≤ d2) :
    shotDist sx sy = min (Real.sqrt ((100 - sx) ^ 2 + (50 - sy) ^ 2))
        (Real.sqrt ((sx - 0) ^ 2 + (50 - sy) ^ 2))
    ∧ perShotXg sx sy
        = max 0.01 (min 0.85 (1 / (1 + Real.exp ((shotDist sx sy - 18) / 4.5))))
    ∧ xgOfDist d2 ≤ xgOfDist d1
    ∧ 0.01 ≤ perShotXg sx sy ∧ perShotXg sx sy ≤ 0.85 := by
  refine ⟨rfl, rfl, ?_, ?_, ?_⟩
  · unfold xgOfDist
    have hpos : (0 : ℝ) < 1 + Real.exp ((d1 - 18) / 4.5) := by positivity
    have hexp : Real.exp ((d1 - 18) / 4.5) ≤ Real.exp ((d2 - 18) / 4.5) :=
      Real.exp_le_exp.mpr ((div_le_div_iff_of_pos_right (by norm_num)).mpr (by linarith))
    have hdiv : 1 / (1 + Real.exp ((d2 - 18) / 4.5))
        ≤ 1 / (1 + Real.exp ((d1 - 18) / 4.5)) :=
      one_div_le_one_div_of_le hpos (by linarith)
    exact max_le_max le_rfl (min_le_min le_rfl hdiv)
  · exact le_max_left _ _
  · exact max_le (by norm_num) (min_le_left _ _)

theorem c3_per_shot_xg_formula_monotone_bounded_witness :
    (0 : ℝ) ≤ 1 ∧
      (shotDist 50 50 = min (Real.sqrt ((100 - 50) ^ 2 + (50 - 50) ^ 2))
          (Real.sqrt ((50 - 0) ^ 2 + (50 - 50) ^ 2))
        ∧ perShotXg 50 50
            = max 0.01 (min 0.85 (1 / (1 + Real.exp ((shotDist 50 50 - 18) / 4.5))))
        ∧ xgOfDist 1 ≤ xgOfDist 0
        ∧ 0.01 ≤ perShotXg 50 50 ∧ perShotXg 50 50 ≤ 0.85) :=
  ⟨zero_le_one, c3_per_shot_xg_formula_monotone_bounded 50 50 0 1 zero_le_one⟩

/-!
Claim C6 speaks of "opponent completed passes"; the source counts all
opponent pass rows (line 689 has no outcome filter).  `succOppPassRows` and
`claimedPPDA` below follow the words of the spec (completion tested with
the same `"successful" in outcome` idiom the source uses for every other
completion count), for comparison against the source formula.
-/

/-- Opponent passes with a successful outcome (the spec reading). -/
def succOppPassRows (es : List Ev) : List Ev :=
  (oppPassRows es).filter (fun r => hasSub r.outc "successful")

/-- The PPDA of claim C6, worded from the spec: completed opponent passes
over `max 1` of the attacking-third defensive-action zone count. -/
def claimedPPDA (es : List Ev) : Option ℚ :=
  if (oppPassRows es).isEmpty then none
  else some (roundTo 2 (((succOppPassRows es).length : ℚ)
    / ((max 1 (highZoneCount (highActionRows es)) : ℕ) : ℚ)))

/-- A blank event row to build concrete inputs from. -/
def evBase : Ev :=
  { team := false, typ := "", outc := "", quals := "", x := none, y := none,
    endX := none, endY := none, isShot := false, isGoal := false,
    minute := none, second := none }

/-- An opponent pass completed successfully. -/
def evOppPassOk : Ev := { evBase with typ := "pass", outc := "successful" }

/-- An opponent pass with no recorded outcome (not completed). -/
def evOppPassNoOutcome : Ev := { evBase with typ := "pass" }

/-- A team tackle in the attacking third (x = 70). -/
def evTeamTackle : Ev :=
  { evBase with team := true, typ := "tackle", outc := "successful", x := some 70 }

/-- The events of the PPDA counterexample: two opponent passes (one
completed), one defensive action in the attacking third. -/
def c6Events : List Ev := [evOppPassOk, evOppPassNoOutcome, evTeamTackle]

/-- Constant-zero per-shot xG stand-in (the input has no shots). -/
def xgZero : ℚ → ℚ → ℚ := fun _ _ => 0

/-- Claim C6 counterexample: on `c6Events` the normalizer reports
PPDA = 2/1 = 2 (it divides ALL opponent passes, completed or not), while
the claimed formula over completed passes gives 1/1 = 1. -/
theorem c6_counterexample :
    (normalizeTactical xgZero 0 c6Events).ppda ≠ claimedPPDA c6Events := by
  decide

/-- Claim C6 (amended): the PPDA metric equals opponent pass attempts (all
opponent passes, regardless of outcome) divided by `max 1` of the larger
attacking-third zone count of the team tackles/interceptions/fouls, and
whenever PPDA is reported the pressing-intensity band is High below 10,
Medium below 14 and Low otherwise. -/
theorem c6_amended (xgF : ℚ → ℚ → ℚ) (ts : ℕ) (es : List Ev) (p : ℚ)
    (h : (normalizeTactical xgF ts es).ppda = some p) :
    p = roundTo 2 (((oppPassRows es).length : ℚ)
        / ((max 1 (highZoneCount (highActionRows es)) : ℕ) : ℚ))
    ∧ (normalizeTactical xgF ts es).pressingIntensity
        = some (if p < 10 then "High" else if p < 14 then "Medium" else "Low") := by
  have hp : ppdaOpt es = some p := h
  constructor
  · unfold ppdaOpt at hp
    split at hp
    · exact absurd hp (by simp)
    · exact (Option.some.inj hp).symm
  · show pressingIntensityOpt es = _
    unfold pressingIntensityOpt
    rw [hp]

theorem c6_amended_witness :
    (normalizeTactical xgZero 0 c6Events).ppda = some 2 ∧
      ((2 : ℚ) = roundTo 2 (((oppPassRows c6Events).length : ℚ)
          / ((max 1 (highZoneCount (highActionRows c6Events)) : ℕ) : ℚ))
        ∧ (normalizeTactical xgZero 0 c6Events).pressingIntensity
            = some (if (2 : ℚ) < 10 then "High"
                else if (2 : ℚ) < 14 then "Medium" else "Low")) :=
  ⟨by decide, c6_amended xgZero 0 c6Events 2 (by decide)⟩

end FA.WS

end RatKernelReduction
